import Mathlib

/-!
Shallow embedding of the LiteLLM telegram manager repository:
the gateway client (litellm_client.py) and the token-provisioning
command handler (bot.py, create_token_command).

Conventions of the embedding:
* JSON-shaped Python runtime values are the inductive type PyVal.
* An uncaught Python exception is a PyExn; code that can raise returns
  Except PyExn a, and code that catches requests.exceptions.RequestException
  turns the corresponding PyExn (requestExc) back into a data value exactly
  where the source has a try/except block.
* Every outbound HTTP request is an oracle value of type HttpOutcome:
  ok body models a 200 response whose json() is body, httpError s m models
  a response with non-2xx status s (raise_for_status raises a
  RequestException carrying s), transportError m models a network failure
  (a RequestException with no response attached).
* datetime.fromisoformat is abstracted as a parameter
  parse : String -> Option Int returning a UTC timestamp, with Option.none
  modelling a ValueError; the Z-suffix preprocessing done by the source
  before parsing is the function preprocessZ.
-/

/-- Dynamic JSON-shaped Python runtime value. -/
inductive PyVal where
  | none
  | bool (b : Bool)
  | int (n : Int)
  | str (s : String)
  | list (xs : List PyVal)
  | dict (entries : List (String × PyVal))

/-- An uncaught Python exception, as raised by the embedded code. -/
inductive PyExn where
  | requestExc (msg : String) (status : Option Nat)
  | valueError (msg : String)
  | attributeError (msg : String)
  | typeError (msg : String)

/-- Python truthiness of a value. -/
def PyVal.truthy : PyVal → Bool
  | .none => false
  | .bool b => b
  | .int n => n != 0
  | .str s => s != ""
  | .list xs => !xs.isEmpty
  | .dict es => !es.isEmpty

/-- Whether the value is Python None. -/
def PyVal.isNone : PyVal → Bool
  | .none => true
  | _ => false

/-- First-match lookup in a dict entry list. -/
def dictLookup : String → List (String × PyVal) → Option PyVal
  | _, [] => Option.none
  | key, (k, v) :: rest => if k = key then some v else dictLookup key rest

/-- Python v.get(key, dflt): AttributeError when the receiver is not a dict. -/
def PyVal.get (v : PyVal) (key : String) (dflt : PyVal) : Except PyExn PyVal :=
  match v with
  | .dict es => .ok ((dictLookup key es).getD dflt)
  | _ => .error (.attributeError "object has no attribute get")

/-- Python v.get(key, dflt) at call sites where the receiver is statically a
dict built by the embedded code itself; on a non-dict it yields the default. -/
def PyVal.dget (v : PyVal) (key : String) (dflt : PyVal) : PyVal :=
  match v with
  | .dict es => (dictLookup key es).getD dflt
  | _ => dflt

/-- Python iteration: a list yields its items, a dict its keys, a string its
characters; anything else raises TypeError. -/
def PyVal.iter : PyVal → Except PyExn (List PyVal)
  | .list xs => .ok xs
  | .dict es => .ok (es.map fun e => .str e.fst)
  | .str s => .ok (s.toList.map fun c => .str (String.mk [c]))
  | _ => .error (.typeError "object is not iterable")

/-- Python len on sized values. -/
def PyVal.len : PyVal → Except PyExn Nat
  | .list xs => .ok xs.length
  | .dict es => .ok es.length
  | .str s => .ok s.length
  | _ => .error (.typeError "object has no len")

/-- Python a or b. -/
def pyOr (a b : PyVal) : PyVal := if a.truthy then a else b

/-- Python s.lower(). -/
def pyLower (s : String) : String := String.mk (s.toList.map Char.toLower)

/-- Whitespace as stripped by Python strip. -/
def pyIsSpace (c : Char) : Bool :=
  c == ' ' || c == '\t' || c == '\n' || c == '\r' ||
  c == Char.ofNat 11 || c == Char.ofNat 12

/-- Drop leading whitespace from a character list. -/
def dropLeadSpace : List Char → List Char
  | [] => []
  | c :: cs => if pyIsSpace c then dropLeadSpace cs else c :: cs

/-- Python s.strip(). -/
def pyStrip (s : String) : String :=
  String.mk ((dropLeadSpace (dropLeadSpace s.toList.reverse).reverse))

/-- Python s.lower().strip() on a string. -/
def pyNorm (s : String) : String := pyStrip (pyLower s)

/-- Python v.lower().strip() on a dynamic value: AttributeError off strings. -/
def pyLowerStrip : PyVal → Except PyExn String
  | .str s => .ok (pyStrip (pyLower s))
  | _ => .error (.attributeError "object has no attribute lower")

/-- Python truthiness of an optional string argument (None and the empty
string are falsy). -/
def optStrTruthy : Option String → Bool
  | Option.none => false
  | some s => s != ""

/-- Outcome of one HTTP request made by the client (see the header comment). -/
inductive HttpOutcome where
  | ok (body : PyVal)
  | httpError (status : Nat) (msg : String)
  | transportError (msg : String)

/-- requests.get or post followed by raise_for_status followed by json():
returns the body on 200 and raises a RequestException otherwise. -/
def HttpOutcome.raiseOr : HttpOutcome → Except PyExn PyVal
  | .ok b => .ok b
  | .httpError s m => .error (.requestExc m (some s))
  | .transportError m => .error (.requestExc m Option.none)

/-- Whether the response came back with status 200 (no exception raised). -/
def HttpOutcome.is200 : HttpOutcome → Bool
  | .ok _ => true
  | _ => false

/-- The failure dict built by the except-blocks of litellm_client.py:
success False, the error message, and the status code when a response
was attached to the exception. -/
def failureDict (msg : String) (status : Option Nat) : PyVal :=
  .dict [("success", .bool false), ("error", .str msg),
         ("status_code", match status with
                         | some s => .int (s : Int)
                         | Option.none => .none)]

/-- Page-body normalization inside list_users: a bare list is taken as is, a
dict is probed for a users key then a data key, anything else gives []. -/
def normalizePage (body : PyVal) : PyVal :=
  match body with
  | .list xs => .list xs
  | .dict es =>
      pyOr ((PyVal.dict es).dget "users" .none)
        (pyOr ((PyVal.dict es).dget "data" .none) (.list []))
  | _ => .list []

/-- The page loop of list_users: for page in range(1, 1000): fetch; on a
RequestException return the failure dict (discarding the accumulator);
extend the accumulator; break after a short or empty page. -/
def listUsersLoop (fetch : Nat → HttpOutcome) (page_size : Nat) (page : Nat)
    (fuel : Nat) (acc : List PyVal) : Except PyExn PyVal :=
  match fuel with
  | 0 => .ok (.list acc)
  | fuel' + 1 =>
    match fetch page with
    | .ok body =>
      match (normalizePage body).iter with
      | .error e => .error e
      | .ok us =>
        let acc2 := acc ++ us
        if us.length < page_size ∨ us.isEmpty = true then .ok (.list acc2)
        else listUsersLoop fetch page_size (page + 1) fuel' acc2
    | .httpError s m => .ok (failureDict m (some s))
    | .transportError m => .ok (failureDict m Option.none)

/-- LiteLLMClient.list_users: paginated fetch of user/list, pages 1..999. -/
def list_users (fetch : Nat → HttpOutcome) (page_size : Nat) :
    Except PyExn PyVal :=
  listUsersLoop fetch page_size 1 999 []

/-- LiteLLMClient.list_teams: one fetch of team/list, every RequestException
captured as a failure dict. -/
def list_teams (resp : HttpOutcome) : PyVal :=
  match resp with
  | .ok body => .dict [("success", .bool true), ("data", body)]
  | .httpError s m => failureDict m (some s)
  | .transportError m => failureDict m Option.none

/-- The scan loop of get_team_id_by_name: for team in teams, read
team.get with key team_alias, compare lowercased and stripped, and return
team.get with key team_id on the first match. -/
def scanTeamsForId (target : String) : List PyVal → Except PyExn PyVal
  | [] => .ok .none
  | team :: rest =>
    match team.get "team_alias" (.str "") with
    | .error e => .error e
    | .ok al =>
      if al.truthy then
        match pyLowerStrip al with
        | .error e => .error e
        | .ok a =>
          if a = target then team.get "team_id" .none
          else scanTeamsForId target rest
      else scanTeamsForId target rest

/-- LiteLLMClient.get_team_id_by_name. -/
def get_team_id_by_name (teamsResp : HttpOutcome) (team_name : String) :
    Except PyExn PyVal :=
  let result := list_teams teamsResp
  if !(result.dget "success" .none).truthy then .ok .none
  else
    let teams0 := result.dget "data" (.list [])
    let teams :=
      match teams0 with
      | .dict es =>
        match dictLookup "teams" es with
        | some t => t
        | Option.none => .dict es
      | v => v
    match teams.iter with
    | .error e => .error e
    | .ok ts => scanTeamsForId (pyNorm team_name) ts

/-- The name-scan loop of team_exists: true on the first case-insensitive,
trimmed alias match. -/
def scanTeamsExists (target : String) : List PyVal → Except PyExn Bool
  | [] => .ok false
  | team :: rest =>
    match team.get "team_alias" (.str "") with
    | .error e => .error e
    | .ok al =>
      if al.truthy then
        match pyLowerStrip al with
        | .error e => .error e
        | .ok a =>
          if a = target then .ok true
          else scanTeamsExists target rest
      else scanTeamsExists target rest

/-- LiteLLMClient.team_exists: ValueError when neither id nor name is given;
an id probe that returns True only on status 200 and otherwise falls
through; then a name scan over list_teams, whose except-block would turn a
RequestException into a dict; finally False. -/
def team_exists (infoResp teamsResp : HttpOutcome)
    (team_id team_name : Option String) : Except PyExn PyVal :=
  if !optStrTruthy team_id && !optStrTruthy team_name then
    .error (.valueError "At least one of team_id or team_name must be provided")
  else if optStrTruthy team_id && infoResp.is200 then .ok (.bool true)
  else
    match team_name with
    | some tn =>
      if tn != "" then
        let existing := list_teams teamsResp
        let teams :=
          match existing with
          | .dict _ =>
            pyOr (existing.dget "teams" .none)
              (pyOr (existing.dget "data" .none) (.list []))
          | .list xs => .list xs
          | _ => .list []
        match teams.iter with
        | .error e => .error e
        | .ok ts =>
          match scanTeamsExists (pyNorm tn) ts with
          | .ok true => .ok (.bool true)
          | .ok false => .ok (.bool false)
          | .error (.requestExc m _) =>
            .ok (.dict [("success", .bool false), ("exists", .none),
                        ("error", .str m)])
          | .error e => .error e
      else .ok (.bool false)
    | Option.none => .ok (.bool false)

/-- The email-scan loop of get_user_info: for user in users, read
user.get with key user_email and return the first normalized match. -/
def scanUsersForEmail (target : String) : List PyVal → Except PyExn PyVal
  | [] => .ok .none
  | user :: rest =>
    match user.get "user_email" (.str "") with
    | .error e => .error e
    | .ok ue =>
      if ue.truthy then
        match pyLowerStrip ue with
        | .error e => .error e
        | .ok u =>
          if u = target then .ok user
          else scanUsersForEmail target rest
      else scanUsersForEmail target rest

/-- The email branch of LiteLLMClient.get_user_info: fetch the full user
list (default page size 25) and scan it for the normalized email. -/
def get_user_info_by_email (fetchUsers : Nat → HttpOutcome) (email : String) :
    Except PyExn PyVal :=
  match list_users fetchUsers 25 with
  | .error e => .error e
  | .ok users =>
    match users.iter with
    | .error e => .error e
    | .ok us => scanUsersForEmail (pyNorm email) us

/-- LiteLLMClient.get_user_info: ValueError when neither argument is given;
the user_id branch performs an unguarded fetch of user/info (raises on
failure); the email branch scans list_users. -/
def get_user_info (userInfoResp : HttpOutcome) (fetchUsers : Nat → HttpOutcome)
    (user_id email : Option String) : Except PyExn PyVal :=
  if !optStrTruthy user_id && !optStrTruthy email then
    .error (.valueError "At least one of user_id or email must be provided")
  else if optStrTruthy user_id then userInfoResp.raiseOr
  else
    match email with
    | some em => get_user_info_by_email fetchUsers em
    | Option.none => .error (.attributeError "NoneType has no attribute lower")

/-- LiteLLMClient.user_exists: get_user_info by email is not None. -/
def user_exists (userInfoResp : HttpOutcome) (fetchUsers : Nat → HttpOutcome)
    (email : String) : Except PyExn Bool :=
  match get_user_info userInfoResp fetchUsers Option.none (some email) with
  | .error e => .error e
  | .ok v => .ok (!v.isNone)

/-- LiteLLMClient.get_user_id_by_email: get_user_info by email, then
user_info.get with key user_id (AttributeError when user_info is None). -/
def get_user_id_by_email (fetchUsers : Nat → HttpOutcome) (email : String) :
    Except PyExn PyVal :=
  match get_user_info_by_email fetchUsers email with
  | .error e => .error e
  | .ok info => info.get "user_id" .none

/-- Result of one create_user call: what it returned or raised, and the JSON
body of the user/new request when one was issued. -/
structure CreateUserRun where
  result : Except PyExn PyVal
  posted : Option PyVal

/-- The unguarded POST at the end of create_user: no try/except, so a
failing request raises; the issued request body is recorded. -/
def doPost (post : PyVal → HttpOutcome) (data : PyVal) : CreateUserRun :=
  match post data with
  | .ok body =>
    ⟨.ok (.dict [("success", .bool true), ("data", body)]), some data⟩
  | .httpError s m => ⟨.error (.requestExc m (some s)), some data⟩
  | .transportError m => ⟨.error (.requestExc m Option.none), some data⟩

/-- LiteLLMClient.create_user with no extra kwargs (as the bot calls it):
with a team name, the name must pass team_exists, then the id is resolved
and attached under the teams key; a missing team returns an error dict and
issues no request; the final POST itself is unguarded. -/
def create_user (infoResp teamsResp : HttpOutcome) (post : PyVal → HttpOutcome)
    (email : String) (team_name : Option String) : CreateUserRun :=
  match team_name with
  | some tn =>
    if tn != "" then
      match team_exists infoResp teamsResp Option.none (some tn) with
      | .error e => ⟨.error e, Option.none⟩
      | .ok te =>
        if te.truthy then
          match get_team_id_by_name teamsResp tn with
          | .error e => ⟨.error e, Option.none⟩
          | .ok tid =>
            doPost post (.dict [("user_email", .str email), ("teams", .list [tid])])
        else
          ⟨.ok (.dict [("success", .bool false),
             ("error", .str ("Team with name " ++ tn ++ " not found."))]),
           Option.none⟩
    else doPost post (.dict [("user_email", .str email), ("teams", .list [])])
  | Option.none =>
    doPost post (.dict [("user_email", .str email), ("teams", .list [])])

/-- LiteLLMClient.create_token for the bot call site (models is None; the
duration and budget kwargs are elided from the body, which does not affect
control flow): resolve the user id (its failures propagate, the call is
before the try-block), then POST key/generate with every RequestException
captured as a failure dict. -/
def create_token (fetchUsers : Nat → HttpOutcome) (post : PyVal → HttpOutcome)
    (email : String) : Except PyExn PyVal :=
  match get_user_id_by_email fetchUsers email with
  | .error e => .error e
  | .ok uid =>
    match post (.dict [("metadata", .dict [("user", .str email)]),
                       ("user_id", uid)]) with
    | .ok body => .ok (.dict [("success", .bool true), ("data", body)])
    | .httpError s m => .ok (failureDict m (some s))
    | .transportError m => .ok (failureDict m Option.none)

/-- LiteLLMClient.get_key_info: unguarded fetch of key/info, raises on any
RequestException. -/
def get_key_info (resp : HttpOutcome) : Except PyExn PyVal := resp.raiseOr

/-- LiteLLMClient.list_user_keys: fetch key/list, normalize the wrapper
(keys key, then data key, then []), return a success dict with the count;
every RequestException captured as a failure dict. -/
def list_user_keys (resp : HttpOutcome) : Except PyExn PyVal :=
  match resp with
  | .ok body =>
    let keys : PyVal :=
      match body with
      | .list xs => .list xs
      | .dict _ =>
        pyOr (body.dget "keys" .none) (pyOr (body.dget "data" .none) (.list []))
      | _ => .list []
    match keys.len with
    | .error e => .error e
    | .ok n =>
      .ok (.dict [("success", .bool true), ("count", .int (n : Int)),
                  ("data", keys)])
  | .httpError s m => .ok (failureDict m (some s))
  | .transportError m => .ok (failureDict m Option.none)

/-- Python s.endswith of Z handling done before fromisoformat. -/
def preprocessZ (s : String) : String :=
  if s.endsWith "Z" then s.dropRight 1 ++ "+00:00" else s

/-- The per-key loop of get_active_tokens. For each key: get_key_info
(unguarded, raises on failure), then key_info.get with key info followed by
.get with key expires; a falsy expires means a permanent, active token; a
truthy non-string raises AttributeError at endswith; a parse failure is the
ValueError caught by the try/except, skipping just that key; otherwise the
key is active iff the parsed expiry is strictly later than now. -/
def scanKeysForActive (keyInfo : PyVal → HttpOutcome)
    (parse : String → Option Int) (now : Int) :
    List PyVal → Except PyExn (List PyVal)
  | [] => .ok []
  | key :: rest =>
    match get_key_info (keyInfo key) with
    | .error e => .error e
    | .ok info =>
      match info.get "info" .none with
      | .error e => .error e
      | .ok inner =>
        match inner.get "expires" .none with
        | .error e => .error e
        | .ok expiresVal =>
          if !expiresVal.truthy then
            match scanKeysForActive keyInfo parse now rest with
            | .error e => .error e
            | .ok acts => .ok (key :: acts)
          else
            match expiresVal with
            | .str s =>
              match parse (preprocessZ s) with
              | Option.none => scanKeysForActive keyInfo parse now rest
              | some t =>
                if t > now then
                  match scanKeysForActive keyInfo parse now rest with
                  | .error e => .error e
                  | .ok acts => .ok (key :: acts)
                else scanKeysForActive keyInfo parse now rest
            | _ => .error (.attributeError "object has no attribute endswith")

/-- LiteLLMClient.get_active_tokens: resolve the user id (failures
propagate), list the keys (captured), then run the per-key scan. -/
def get_active_tokens (fetchUsers : Nat → HttpOutcome) (keysResp : HttpOutcome)
    (keyInfo : PyVal → HttpOutcome) (parse : String → Option Int) (now : Int)
    (email : String) : Except PyExn PyVal :=
  match get_user_id_by_email fetchUsers email with
  | .error e => .error e
  | .ok uid =>
    if !uid.truthy then
      .ok (.dict [("success", .bool false),
                  ("error", .str ("User with email " ++ email ++ " not found."))])
    else
      match list_user_keys keysResp with
      | .error e => .error e
      | .ok keysResult =>
        if !(keysResult.dget "success" .none).truthy then .ok keysResult
        else
          match PyVal.iter (keysResult.dget "data" (PyVal.list [])) with
          | .error e => .error e
          | .ok ks =>
            match scanKeysForActive keyInfo parse now ks with
            | .error e => .error e
            | .ok acts =>
              .ok (.dict [("success", .bool true), ("user_id", uid),
                          ("count", .int (acts.length : Int)),
                          ("data", .list acts)])

/-- A user-visible reply sent by the create_token command handler in bot.py,
abstracted from its literal wording. -/
inductive Msg where
  | userMissingCreating
  | doneMsg
  | alreadyHaveToken
  | creatingToken
  | tokenCreated
  | tokenFailed (err : PyVal)

/-- One call to a LiteLLMClient method issued by the handler. -/
inductive ClientCall where
  | userExistsCall
  | createUserCall
  | getActiveTokensCall
  | createTokenCall

/-- Observable behaviour of one run of the handler: the replies sent, the
client calls issued, and the exception it terminated with, if any. -/
structure BotRun where
  messages : List Msg
  calls : List ClientCall
  raised : Option PyExn

/-- Python v > 1: ints compare, bools coerce to 0 or 1 (neither exceeds 1),
anything else raises TypeError -- in particular None > 1 does. -/
def pyGtOne : PyVal → Except PyExn Bool
  | .int n => .ok (decide (n > 1))
  | .bool _ => .ok false
  | _ => .error (.typeError "comparison not supported between instances")

/-- Lines 116-153 of bot.py, after the user-existence step: call
get_active_tokens; if its count field compares greater than 1 reply that a
token already exists; otherwise announce creation, call create_token and
render its success flag. -/
def afterUserStep (m : List Msg) (c : List ClientCall)
    (activeTokensRes createTokenRes : Except PyExn PyVal) : BotRun :=
  match activeTokensRes with
  | .error e => ⟨m, c ++ [.getActiveTokensCall], some e⟩
  | .ok toks =>
    match toks.get "count" .none with
    | .error e => ⟨m, c ++ [.getActiveTokensCall], some e⟩
    | .ok cnt =>
      match pyGtOne cnt with
      | .error e => ⟨m, c ++ [.getActiveTokensCall], some e⟩
      | .ok b =>
        if b then
          ⟨m ++ [.alreadyHaveToken], c ++ [.getActiveTokensCall], Option.none⟩
        else
          match createTokenRes with
          | .error e =>
            ⟨m ++ [.creatingToken],
             c ++ [.getActiveTokensCall, .createTokenCall], some e⟩
          | .ok res =>
            if (res.dget "success" .none).truthy then
              ⟨m ++ [.creatingToken, .tokenCreated],
               c ++ [.getActiveTokensCall, .createTokenCall], Option.none⟩
            else
              ⟨m ++ [.creatingToken, .tokenFailed (res.dget "error" .none)],
               c ++ [.getActiveTokensCall, .createTokenCall], Option.none⟩

/-- bot.py create_token_command, parameterized by the results of the client
calls it makes for the email of the caller: check user_exists; when the user is
missing, announce creation, call create_user, bind its result to a variable
that is never read again, and reply Done regardless; then proceed to the
token steps. -/
def create_token_command (userExistsRes : Except PyExn Bool)
    (createUserRes activeTokensRes createTokenRes : Except PyExn PyVal) :
    BotRun :=
  match userExistsRes with
  | .error e => ⟨[], [.userExistsCall], some e⟩
  | .ok b =>
    if b then afterUserStep [] [.userExistsCall] activeTokensRes createTokenRes
    else
      match createUserRes with
      | .error e =>
        ⟨[.userMissingCreating], [.userExistsCall, .createUserCall], some e⟩
      | .ok _ =>
        afterUserStep [.userMissingCreating, .doneMsg]
          [.userExistsCall, .createUserCall] activeTokensRes createTokenRes

/-- Backend for the C8 positive half: one page holding the sought user. -/
def c8Fetch : Nat → HttpOutcome :=
  fun _ => .ok (.list [.dict [("user_email", .str "x@y.com"),
                              ("user_id", .str "u1")]])

/-- Key-detail oracle for the C4 counterexample: the detail fetch for key k1
fails with HTTP 500, every other key is a permanent (active) token. -/
def c4DetailOracle : PyVal → HttpOutcome := fun k =>
  match k with
  | .str "k1" => .httpError 500 "boom"
  | _ => .ok (.dict [("info", .dict [("expires", PyVal.none)])])

/-- Key-detail oracle built from a per-key expires field: every detail fetch
succeeds and returns a body shaped like the key/info response. -/
def expOracle (expOf : PyVal → PyVal) : PyVal → HttpOutcome :=
  fun k => .ok (.dict [("info", .dict [("expires", expOf k)])])

/-- The per-key classification get_active_tokens implements, as a predicate:
a falsy expires field is a permanent, active token; a truthy string is
active iff it parses to a time strictly later than now, and an unparseable
one is not active. -/
def keyActive (expOf : PyVal → PyVal) (parse : String → Option Int)
    (now : Int) (k : PyVal) : Bool :=
  match expOf k with
  | .str u =>
    if u = "" then true
    else
      match parse (preprocessZ u) with
      | some t => decide (t > now)
      | Option.none => false
  | e => !e.truthy

/-- Concrete timestamp parser for witnesses: everything parses to 5. -/
def c2Parse : String → Option Int := fun _ => some 5

/-- Concrete backend for the C3 witness: pages of sizes 25, 25, 10. -/
def c3Pages : Nat → HttpOutcome := fun p =>
  if p = 1 then .ok (.list (List.replicate 25 (PyVal.int 1)))
  else if p = 2 then .ok (.list (List.replicate 25 (PyVal.int 2)))
  else if p = 3 then .ok (.list (List.replicate 10 (PyVal.int 3)))
  else .ok (.list [])

/-- Concrete backend for the C3 witness failure scenario: a full first page,
then an HTTP 500 on page 2. -/
def c3FailPages : Nat → HttpOutcome := fun p =>
  if p = 1 then .ok (.list (List.replicate 25 (PyVal.int 1)))
  else .httpError 500 "boom"

/-- Expires fields for the C4 witness: key kb carries an unparseable
timestamp, every other key is permanent. -/
def c4ExpOf : PyVal → PyVal := fun k =>
  match k with
  | .str "kb" => .str "not-a-date"
  | _ => PyVal.none

/-- The always-failing timestamp parser (models fromisoformat raising
ValueError on any of these strings). -/
def c4NoParse : String → Option Int := fun _ => Option.none

/-- Backend team list for the C6 witness: no teams at all. -/
def c6TeamsA : HttpOutcome := .ok (.list [])

/-- Backend team list for the C6 witness: one team named acme. -/
def c6TeamsB : HttpOutcome :=
  .ok (.list [.dict [("team_alias", .str "acme"), ("team_id", .str "t1")]])

/-- C1: the claim says one or more active tokens make the workflow answer
already-provisioned with no token-creation call, creating only at count
zero. The code tests count greater than 1: with exactly one active token it
still announces creation and issues the create_token call; only at count 2
does it answer already-provisioned. -/
theorem c1_one_active_token_still_creates :
    create_token_command (.ok true) (.ok PyVal.none)
      (.ok (.dict [("success", .bool true), ("count", .int 1),
                   ("data", .list [.str "sk-old"])]))
      (.ok (.dict [("success", .bool true),
                   ("data", .dict [("key", .str "sk-new")])]))
    = ⟨[.creatingToken, .tokenCreated],
       [.userExistsCall, .getActiveTokensCall, .createTokenCall],
       Option.none⟩
    ∧ create_token_command (.ok true) (.ok PyVal.none)
      (.ok (.dict [("success", .bool true), ("count", .int 2),
                   ("data", .list [.str "a", .str "b"])]))
      (.ok PyVal.none)
    = ⟨[.alreadyHaveToken], [.userExistsCall, .getActiveTokensCall],
       Option.none⟩ :=
  ⟨rfl, rfl⟩

/-- C9: the claim says a failing user-creation step yields a failed workflow
result carrying the error. The code binds the create_user result to an
unused variable and replies Done regardless: with a failure dict from
create_user the handler still sends Done, proceeds to get_active_tokens,
and never renders the creation error (here it then crashes comparing a
missing count against 1; with a benign token scan it happily issues a new
token as if creation had succeeded). -/
theorem c9_create_user_failure_ignored :
    create_token_command (.ok false)
      (.ok (.dict [("success", .bool false),
                   ("error", .str "Team with name StudentsNSTU not found.")]))
      (.ok (.dict [("success", .bool false),
                   ("error", .str "User with email a@b.c not found.")]))
      (.ok PyVal.none)
    = ⟨[.userMissingCreating, .doneMsg],
       [.userExistsCall, .createUserCall, .getActiveTokensCall],
       some (.typeError "comparison not supported between instances")⟩
    ∧ create_token_command (.ok false)
      (.ok (.dict [("success", .bool false),
                   ("error", .str "Team with name StudentsNSTU not found.")]))
      (.ok (.dict [("success", .bool true), ("count", .int 0),
                   ("data", .list [])]))
      (.ok (.dict [("success", .bool true),
                   ("data", .dict [("key", .str "sk-new")])]))
    = ⟨[.userMissingCreating, .doneMsg, .creatingToken, .tokenCreated],
       [.userExistsCall, .createUserCall, .getActiveTokensCall,
        .createTokenCall],
       Option.none⟩ :=
  ⟨rfl, rfl⟩

/-- C8: the claim (and the docstring of get_user_id_by_email) says a missing
user is signalled by a null result; the code instead calls get on None and
raises AttributeError. With a backend holding no users the operation raises;
with the user present it does return the user_id. -/
theorem c8_missing_user_raises_attribute_error :
    get_user_id_by_email (fun _ => .ok (.list [])) "x@y.com"
      = .error (.attributeError "object has no attribute get")
    ∧ get_user_id_by_email c8Fetch "x@y.com" = .ok (.str "u1") :=
  ⟨rfl, rfl⟩

/-- C10: when any page fetch fails, list_users returns the failure dict
instead of a list; get_user_info by email then iterates that dict, getting
its string keys, and calling get on a string raises AttributeError, so
get_user_info by email and user_exists terminate with an uncaught exception
on such transport failures. -/
theorem c10_failure_dict_iteration_raises (m : String) (s : Nat) :
    list_users (fun _ => .httpError s m) 25 = .ok (failureDict m (some s))
    ∧ get_user_info_by_email (fun _ => .httpError s m) "a@b.c"
        = .error (.attributeError "object has no attribute get")
    ∧ user_exists (.ok .none) (fun _ => .httpError s m) "a@b.c"
        = .error (.attributeError "object has no attribute get")
    ∧ get_user_info (.ok .none) (fun _ => .httpError s m)
        Option.none (some "a@b.c")
        = .error (.attributeError "object has no attribute get") :=
  ⟨rfl, rfl, rfl, rfl⟩

/-- C5 counterexample: create_user is a gateway network operation, yet on a
non-2xx answer to its creation POST it raises the RequestException uncaught
instead of returning a structured failure value, contradicting the claimed
contract for every network operation. -/
theorem c5_create_user_raises_uncaught :
    (create_user (.transportError "x") (.ok (.list []))
       (fun _ => .httpError 500 "boom") "a@b.c" Option.none).result
      = .error (.requestExc "boom" (some 500)) :=
  rfl

/-- C4 counterexample: in the active-token scan a failing key-detail fetch
does not skip just that key: the uncaught RequestException aborts the whole
scan, and the remaining keys (here k2, a permanent token) are never
reported in a success result. -/
theorem c4_detail_fetch_failure_aborts :
    scanKeysForActive c4DetailOracle (fun _ => Option.none) 0
      [.str "k1", .str "k2"]
      = .error (.requestExc "boom" (some 500)) :=
  rfl

/-- C7 counterexample: team_exists is not the only fail-fast precondition in
the gateway client: get_user_info called with neither a user id nor an
email also raises ValueError immediately. -/
theorem c7_not_only_fail_fast :
    get_user_info (.ok .none) (fun _ => .transportError "x")
      Option.none Option.none
      = .error (.valueError "At least one of user_id or email must be provided") :=
  rfl

/-- C7 amended: team_exists with neither id nor name fails fast with
ValueError (the InvalidArgument of the spec), whatever the backend would
answer; but it is one of two such fail-fast preconditions, the other being
get_user_info with neither user id nor email. -/
theorem c7_fail_fast_preconditions (infoResp teamsResp userInfoResp : HttpOutcome)
    (fetchUsers : Nat → HttpOutcome) :
    team_exists infoResp teamsResp Option.none Option.none
      = .error (.valueError "At least one of team_id or team_name must be provided")
    ∧ get_user_info userInfoResp fetchUsers Option.none Option.none
      = .error (.valueError "At least one of user_id or email must be provided") :=
  ⟨rfl, rfl⟩

/-- C2: in the active-token scan a key is classified active iff its expires
field is absent (None), or its parsed UTC timestamp is strictly greater
than the current time; at the boundary where the expiry equals now the key
is classified expired; a missing expires entry behaves like None. -/
theorem c2_active_classification (k : PyVal) (parse : String → Option Int)
    (now t : Int) (s : String) (hs : s ≠ "")
    (hp : parse (preprocessZ s) = some t) :
    scanKeysForActive (expOracle fun _ => PyVal.none) parse now [k] = .ok [k]
    ∧ scanKeysForActive (expOracle fun _ => .str s) parse now [k]
        = .ok (if t > now then [k] else [])
    ∧ scanKeysForActive (expOracle fun _ => .str s) parse t [k] = .ok []
    ∧ scanKeysForActive (fun _ => .ok (.dict [("info", .dict [])])) parse now [k]
        = .ok [k] := by
  refine ⟨rfl, ?_, ?_, rfl⟩
  · by_cases hgt : t > now <;>
      simp [scanKeysForActive, expOracle, get_key_info, HttpOutcome.raiseOr,
            PyVal.get, dictLookup, PyVal.truthy, hs, hp, hgt]
  · simp [scanKeysForActive, expOracle, get_key_info, HttpOutcome.raiseOr,
          PyVal.get, dictLookup, PyVal.truthy, hs, hp]

/-- Witness for C2 at a concrete parser and timestamps. -/
theorem c2_active_classification_witness :
    scanKeysForActive (expOracle fun _ => PyVal.none) c2Parse 3 [.str "k"]
      = .ok [.str "k"]
    ∧ scanKeysForActive (expOracle fun _ => .str "2030-01-01") c2Parse 3
        [.str "k"] = .ok (if (5:Int) > 3 then [.str "k"] else [])
    ∧ scanKeysForActive (expOracle fun _ => .str "2030-01-01") c2Parse 5
        [.str "k"] = .ok []
    ∧ scanKeysForActive (fun _ => .ok (.dict [("info", .dict [])])) c2Parse 3
        [.str "k"] = .ok [.str "k"] :=
  c2_active_classification (.str "k") c2Parse 3 5 "2030-01-01"
    (by decide) rfl

/-- One full page (length exactly page_size, positive): the loop extends the
accumulator and continues with the next page. -/
theorem listUsersLoop_full_step (fetch : Nat → HttpOutcome)
    (ps page fuel : Nat) (acc us : List PyVal)
    (h : fetch page = .ok (.list us)) (hl : us.length = ps) (hps : 0 < ps) :
    listUsersLoop fetch ps page (fuel + 1) acc
      = listUsersLoop fetch ps (page + 1) fuel (acc ++ us) := by
  have hne : us.isEmpty = false := by
    cases us with
    | nil => exfalso; simp at hl; omega
    | cons a l => rfl
  simp [listUsersLoop, h, normalizePage, PyVal.iter, hl, hne, lt_irrefl]

/-- A short page: the loop appends it and stops. -/
theorem listUsersLoop_short_step (fetch : Nat → HttpOutcome)
    (ps page fuel : Nat) (acc us : List PyVal)
    (h : fetch page = .ok (.list us)) (hl : us.length < ps) :
    listUsersLoop fetch ps page (fuel + 1) acc = .ok (.list (acc ++ us)) := by
  simp [listUsersLoop, h, normalizePage, PyVal.iter, hl]

/-- A failing page fetch: the loop returns the failure dict, discarding the
accumulator. -/
theorem listUsersLoop_err_step (fetch : Nat → HttpOutcome)
    (ps page fuel : Nat) (acc : List PyVal) (s : Nat) (m : String)
    (h : fetch page = .httpError s m) :
    listUsersLoop fetch ps page (fuel + 1) acc
      = .ok (failureDict m (some s)) := by
  simp [listUsersLoop, h]

/-- The loop only ever consults the pages page .. page + fuel - 1. -/
theorem listUsersLoop_pages_congr (f g : Nat → HttpOutcome) (ps : Nat) :
    ∀ (fuel page : Nat) (acc : List PyVal),
      (∀ p, page ≤ p → p < page + fuel → f p = g p) →
      listUsersLoop f ps page fuel acc = listUsersLoop g ps page fuel acc := by
  intro fuel
  induction fuel with
  | zero => intro page acc h; rfl
  | succ n ih =>
    intro page acc h
    have hpage : f page = g page := h page (le_refl page) (by omega)
    have hrest : ∀ p, page + 1 ≤ p → p < page + 1 + n → f p = g p := by
      intro p h1 h2
      exact h p (by omega) (by omega)
    simp only [listUsersLoop, hpage]
    cases hgp : g page with
    | ok body =>
      cases hit : (normalizePage body).iter with
      | error e => simp [hit]
      | ok us =>
        by_cases hcond : us.length < ps ∨ us.isEmpty = true
        · simp only [hit]
          rw [if_pos hcond, if_pos hcond]
        · simp only [hit]
          rw [if_neg hcond, if_neg hcond]
          exact ih (page + 1) (acc ++ us) hrest
    | httpError s m => rfl
    | transportError m => rfl

/-- C3: the paginated list-users fetch stops after the first short page and
returns the concatenation of the fetched pages (pages of sizes 25, 25, 10
give the 60 records of pages one to three, later pages never being
consulted); a failing page fetch makes the whole operation return the
failure dict, discarding the pages gathered before it; and the loop is
bounded: the result depends only on the backend answers for pages
1 to 999. -/
theorem c3_list_users_pagination (fetch ffail f g : Nat → HttpOutcome)
    (u1 u2 u3 v1 : List PyVal) (m : String) (s : Nat)
    (h1 : fetch 1 = .ok (.list u1)) (h2 : fetch 2 = .ok (.list u2))
    (h3 : fetch 3 = .ok (.list u3))
    (l1 : u1.length = 25) (l2 : u2.length = 25) (l3 : u3.length = 10)
    (g1 : ffail 1 = .ok (.list v1)) (gl : v1.length = 25)
    (g2 : ffail 2 = .httpError s m)
    (hfg : ∀ p, 1 ≤ p → p ≤ 999 → f p = g p) :
    list_users fetch 25 = .ok (.list (u1 ++ u2 ++ u3))
    ∧ list_users ffail 25 = .ok (failureDict m (some s))
    ∧ list_users f 25 = list_users g 25 := by
  refine ⟨?_, ?_, ?_⟩
  · calc listUsersLoop fetch 25 1 999 []
        = listUsersLoop fetch 25 2 998 ([] ++ u1) :=
          listUsersLoop_full_step fetch 25 1 998 [] u1 h1 l1 (by norm_num)
      _ = listUsersLoop fetch 25 3 997 (([] ++ u1) ++ u2) :=
          listUsersLoop_full_step fetch 25 2 997 ([] ++ u1) u2 h2 l2
            (by norm_num)
      _ = .ok (.list ((([] ++ u1) ++ u2) ++ u3)) :=
          listUsersLoop_short_step fetch 25 3 996 (([] ++ u1) ++ u2) u3 h3
            (by omega)
      _ = .ok (.list (u1 ++ u2 ++ u3)) := by simp
  · calc listUsersLoop ffail 25 1 999 []
        = listUsersLoop ffail 25 2 998 ([] ++ v1) :=
          listUsersLoop_full_step ffail 25 1 998 [] v1 g1 gl (by norm_num)
      _ = .ok (failureDict m (some s)) :=
          listUsersLoop_err_step ffail 25 2 997 ([] ++ v1) s m g2
  · exact listUsersLoop_pages_congr f g 25 999 1 []
      (fun p hp1 hp2 => hfg p hp1 (by omega))

/-- Witness for C3 at a concrete backend with pages of sizes 25, 25, 10 and
a concrete backend failing on page 2. -/
theorem c3_list_users_pagination_witness :
    list_users c3Pages 25
      = .ok (.list (List.replicate 25 (PyVal.int 1)
          ++ List.replicate 25 (PyVal.int 2)
          ++ List.replicate 10 (PyVal.int 3)))
    ∧ list_users c3FailPages 25 = .ok (failureDict "boom" (some 500))
    ∧ list_users c3Pages 25 = list_users c3Pages 25 :=
  c3_list_users_pagination c3Pages c3FailPages c3Pages c3Pages
    (List.replicate 25 (PyVal.int 1)) (List.replicate 25 (PyVal.int 2))
    (List.replicate 10 (PyVal.int 3)) (List.replicate 25 (PyVal.int 1))
    "boom" 500 rfl rfl rfl rfl rfl rfl rfl rfl rfl (fun _ _ _ => rfl)

/-- C4 amended: when every key-detail fetch succeeds (and each expires field
is None or a string), a key whose expiry is unparseable is merely treated
as not active and the scan continues, returning the filter of the keys by
the active-classification; but a key whose detail fetch fails raises the
RequestException and aborts the whole scan. -/
theorem c4_scan_skips_unparseable (expOf : PyVal → PyVal)
    (parse : String → Option Int) (now : Int) (keys rest : List PyVal)
    (k0 : PyVal) (s : Nat) (m : String) (kiFail : PyVal → HttpOutcome)
    (hshape : ∀ k, k ∈ keys → expOf k = PyVal.none ∨ ∃ u, expOf k = .str u)
    (hf : kiFail k0 = .httpError s m) :
    scanKeysForActive (expOracle expOf) parse now keys
      = .ok (keys.filter (keyActive expOf parse now))
    ∧ scanKeysForActive kiFail parse now (k0 :: rest)
      = .error (.requestExc m (some s)) := by
  constructor
  · induction keys with
    | nil => rfl
    | cons k ks ih =>
      have hrest := ih (fun x hx => hshape x (List.mem_cons_of_mem k hx))
      rcases hshape k (List.mem_cons_self k ks) with hk | ⟨u, hk⟩
      · simp [scanKeysForActive, expOracle, get_key_info, HttpOutcome.raiseOr,
              PyVal.get, dictLookup, hk, PyVal.truthy, hrest,
              List.filter_cons, keyActive]
      · by_cases hu : u = ""
        · subst hu
          simp [scanKeysForActive, expOracle, get_key_info,
                HttpOutcome.raiseOr, PyVal.get, dictLookup, hk, PyVal.truthy,
                hrest, List.filter_cons, keyActive]
        · cases hpu : parse (preprocessZ u) with
          | none =>
            simp [scanKeysForActive, expOracle, get_key_info,
                  HttpOutcome.raiseOr, PyVal.get, dictLookup, hk, hu,
                  PyVal.truthy, hpu, hrest, List.filter_cons, keyActive]
          | some t =>
            by_cases hgt : t > now <;>
              simp [scanKeysForActive, expOracle, get_key_info,
                    HttpOutcome.raiseOr, PyVal.get, dictLookup, hk, hu,
                    PyVal.truthy, hpu, hgt, hrest, List.filter_cons,
                    keyActive]
  · simp [scanKeysForActive, get_key_info, HttpOutcome.raiseOr, hf]

/-- Witness for C4 amended: key ka is permanent, key kb has an unparseable
expiry and is skipped while the scan succeeds; a scan whose first key fails
its detail fetch aborts with the HTTP 500. -/
theorem c4_scan_skips_unparseable_witness :
    scanKeysForActive (expOracle c4ExpOf) c4NoParse 0 [.str "ka", .str "kb"]
      = .ok (([PyVal.str "ka", PyVal.str "kb"]).filter
          (keyActive c4ExpOf c4NoParse 0))
    ∧ scanKeysForActive c4DetailOracle c4NoParse 0 [.str "k1"]
      = .error (.requestExc "boom" (some 500)) :=
  c4_scan_skips_unparseable c4ExpOf c4NoParse 0 [.str "ka", .str "kb"] []
    (.str "k1") 500 "boom" c4DetailOracle
    (by
      intro x hx
      rcases List.mem_cons.mp hx with rfl | hx2
      · exact Or.inl rfl
      · rcases List.mem_cons.mp hx2 with rfl | hx3
        · exact Or.inr ⟨"not-a-date", rfl⟩
        · exact absurd hx3 (List.not_mem_nil x))
    rfl

/-- The final POST of create_user records the issued request body whatever
the outcome. -/
theorem doPost_posted (post : PyVal → HttpOutcome) (d : PyVal) :
    (doPost post d).posted = some d := by
  cases h : post d <;> simp [doPost, h]

/-- C5 amended: list_teams, list_users, list_user_keys and the
key-generation POST of create_token capture every transport failure and
non-2xx status as a structured failure value carrying the error message and
the status code (or a null marker for transport failures); but get_key_info,
get_user_info by user id and the creation POST of create_user raise the
RequestException uncaught instead. -/
theorem c5_capture_policy (s : Nat) (m : String) (email : String)
    (fetchUsers : Nat → HttpOutcome) (uid : PyVal)
    (huid : get_user_id_by_email fetchUsers email = .ok uid) :
    list_teams (.httpError s m) = failureDict m (some s)
    ∧ list_teams (.transportError m) = failureDict m Option.none
    ∧ list_users (fun _ => .httpError s m) 25 = .ok (failureDict m (some s))
    ∧ list_users (fun _ => .transportError m) 25
        = .ok (failureDict m Option.none)
    ∧ list_user_keys (.httpError s m) = .ok (failureDict m (some s))
    ∧ list_user_keys (.transportError m) = .ok (failureDict m Option.none)
    ∧ create_token fetchUsers (fun _ => .httpError s m) email
        = .ok (failureDict m (some s))
    ∧ create_token fetchUsers (fun _ => .transportError m) email
        = .ok (failureDict m Option.none)
    ∧ get_key_info (.httpError s m) = .error (.requestExc m (some s))
    ∧ get_user_info (.httpError s m) fetchUsers (some "uid1") Option.none
        = .error (.requestExc m (some s))
    ∧ (create_user (.transportError m) (.ok (.list []))
         (fun _ => .httpError s m) email Option.none).result
        = .error (.requestExc m (some s)) := by
  refine ⟨rfl, rfl, rfl, rfl, rfl, rfl, ?_, ?_, rfl, rfl, rfl⟩
  · simp [create_token, huid]
  · simp [create_token, huid]

/-- Witness for C5 at a concrete backend where the email resolves. -/
theorem c5_capture_policy_witness :
    list_teams (.httpError 500 "boom") = failureDict "boom" (some 500)
    ∧ list_teams (.transportError "boom") = failureDict "boom" Option.none
    ∧ list_users (fun _ => .httpError 500 "boom") 25
        = .ok (failureDict "boom" (some 500))
    ∧ list_users (fun _ => .transportError "boom") 25
        = .ok (failureDict "boom" Option.none)
    ∧ list_user_keys (.httpError 500 "boom")
        = .ok (failureDict "boom" (some 500))
    ∧ list_user_keys (.transportError "boom")
        = .ok (failureDict "boom" Option.none)
    ∧ create_token c8Fetch (fun _ => .httpError 500 "boom") "x@y.com"
        = .ok (failureDict "boom" (some 500))
    ∧ create_token c8Fetch (fun _ => .transportError "boom") "x@y.com"
        = .ok (failureDict "boom" Option.none)
    ∧ get_key_info (.httpError 500 "boom")
        = .error (.requestExc "boom" (some 500))
    ∧ get_user_info (.httpError 500 "boom") c8Fetch (some "uid1") Option.none
        = .error (.requestExc "boom" (some 500))
    ∧ (create_user (.transportError "boom") (.ok (.list []))
         (fun _ => .httpError 500 "boom") "x@y.com" Option.none).result
        = .error (.requestExc "boom" (some 500)) :=
  c5_capture_policy 500 "boom" "x@y.com" c8Fetch (.str "u1") rfl

/-- C6: a create_user call whose team name fails the existence check
returns the descriptive error dict at once and issues no user/new request;
when the name does exist, the request is issued with the resolved team id
attached under the teams key. -/
theorem c6_create_user_team_gate (infoResp tEnvA tEnvB : HttpOutcome)
    (post : PyVal → HttpOutcome) (email tn : String) (tid : PyVal)
    (hne : tn ≠ "")
    (hA : team_exists infoResp tEnvA Option.none (some tn) = .ok (.bool false))
    (hB : team_exists infoResp tEnvB Option.none (some tn) = .ok (.bool true))
    (hTid : get_team_id_by_name tEnvB tn = .ok tid) :
    (create_user infoResp tEnvA post email (some tn)).posted = Option.none
    ∧ (create_user infoResp tEnvA post email (some tn)).result
        = .ok (.dict [("success", .bool false),
            ("error", .str ("Team with name " ++ tn ++ " not found."))])
    ∧ (create_user infoResp tEnvB post email (some tn)).posted
        = some (.dict [("user_email", .str email), ("teams", .list [tid])]) := by
  refine ⟨?_, ?_, ?_⟩
  · simp [create_user, hne, hA, PyVal.truthy]
  · simp [create_user, hne, hA, PyVal.truthy]
  · simp [create_user, hne, hB, PyVal.truthy, hTid, doPost_posted]

/-- Witness for C6 at a backend with no teams and a backend holding acme. -/
theorem c6_create_user_team_gate_witness :
    (create_user (.transportError "x") c6TeamsA (fun _ => .ok PyVal.none)
       "a@b.c" (some "acme")).posted = Option.none
    ∧ (create_user (.transportError "x") c6TeamsA (fun _ => .ok PyVal.none)
         "a@b.c" (some "acme")).result
        = .ok (.dict [("success", .bool false),
            ("error", .str ("Team with name " ++ "acme" ++ " not found."))])
    ∧ (create_user (.transportError "x") c6TeamsB (fun _ => .ok PyVal.none)
         "a@b.c" (some "acme")).posted
        = some (.dict [("user_email", .str "a@b.c"),
                       ("teams", .list [.str "t1"])]) :=
  c6_create_user_team_gate (.transportError "x") c6TeamsA c6TeamsB
    (fun _ => .ok PyVal.none) "a@b.c" "acme" (.str "t1")
    (by decide) rfl rfl rfl

/-- Witness for C7 at concrete backend outcomes. -/
theorem c7_fail_fast_preconditions_witness :
    team_exists (.ok .none) (.ok (.list [])) Option.none Option.none
      = .error (.valueError "At least one of team_id or team_name must be provided")
    ∧ get_user_info (.ok .none) (fun _ => .ok (.list []))
        Option.none Option.none
      = .error (.valueError "At least one of user_id or email must be provided") :=
  c7_fail_fast_preconditions (.ok .none) (.ok (.list [])) (.ok .none)
    (fun _ => .ok (.list []))

/-- Witness for C10 at a concrete failing backend. -/
theorem c10_failure_dict_iteration_raises_witness :
    list_users (fun _ => .httpError 500 "boom") 25
      = .ok (failureDict "boom" (some 500))
    ∧ get_user_info_by_email (fun _ => .httpError 500 "boom") "a@b.c"
        = .error (.attributeError "object has no attribute get")
    ∧ user_exists (.ok .none) (fun _ => .httpError 500 "boom") "a@b.c"
        = .error (.attributeError "object has no attribute get")
    ∧ get_user_info (.ok .none) (fun _ => .httpError 500 "boom")
        Option.none (some "a@b.c")
        = .error (.attributeError "object has no attribute get") :=
  c10_failure_dict_iteration_raises "boom" 500
